import Mathlib

/-!
Shallow embedding of `spconv/pytorch/quantization/fuse_mapping.py`:
module-fusion dispatch for sparse convolutions.  Python runtime types are
modelled by closed enumerations, dict lookups keyed on `type(conv)` by
matches on a `ConvType`, `assert`/`raise` by `Except`, and module
construction by constructors of `FusedModule`.
-/

/-- The nine sparse-convolution classes that appear as keys of the fusion
dispatch dictionaries in the source. -/
inductive ConvKind
  | SubMConv1d
  | SparseConv1d
  | SparseInverseConv1d
  | SubMConv2d
  | SparseConv2d
  | SparseInverseConv2d
  | SubMConv3d
  | SparseConv3d
  | SparseInverseConv3d
  deriving DecidableEq, Repr, Fintype

/-- The runtime type of a conv module, as returned by Python `type(conv)`.
`spconv k` is exactly the class `k`; `subclassOf k tag` is a strict subclass
of `k` (a distinct type object, so dict lookup on type identity misses it);
`other tag` is any unrelated class. -/
inductive ConvType
  | spconv (k : ConvKind)
  | subclassOf (k : ConvKind) (tag : Nat)
  | other (tag : Nat)
  deriving DecidableEq, Repr

/-- A conv module: its runtime type, mode flag, channel count and numeric
parameters (`weight ch k` and `bias ch`, per output channel `ch`). -/
structure Conv where
  ty : ConvType
  training : Bool
  out_channels : Nat
  weight : Nat → Nat → ℚ
  bias : Nat → ℚ

/-- A batch-norm module.  `invstd ch` stands for the precomputed
`1 / sqrt(running_var ch + eps)` of the running statistics; it is the only
way the running variance and eps enter any computation in this unit. -/
structure Bn where
  training : Bool
  num_features : Nat
  affine : Bool
  track_running_stats : Bool
  gamma : Nat → ℚ
  beta : Nat → ℚ
  running_mean : Nat → ℚ
  invstd : Nat → ℚ

/-- A ReLU module: only its mode flag is ever read by this unit. -/
structure Relu where
  training : Bool

/-- The modules a fusion call can return: the three intrinsic wrapper
classes of `spconv.pytorch.quantization.intrinsic`, plus a plain folded
conv (the eval result of `fuse_conv_bn`). -/
inductive FusedModule
  | spconvBnNd (conv : Conv) (bn : Bn)
  | spconvBnReLUNd (conv : Conv) (bn : Bn) (relu : Relu)
  | spconvReLUNd (conv : Conv) (relu : Relu)
  | plainConv (conv : Conv)

/-- The spec's error taxonomy: `modeMismatch` for the leading mode assert,
`configurationError msg` for the three training-branch asserts (carrying
the assert message), `unsupportedLayerType` for a conv type absent from
the dispatch table (`NotImplementedError` in the source). -/
inductive FuseError
  | modeMismatch
  | configurationError (msg : String)
  | unsupportedLayerType
  deriving DecidableEq, Repr

/-- Assert message of the channel check in `fuse_conv_bn`. -/
def msg_channels_bn : String :=
  "Output channel of Conv2d must match num_features of BatchNorm2d"

/-- Assert message of the affine check in `fuse_conv_bn`. -/
def msg_affine_bn : String :=
  "Only support fusing BatchNorm2d with affine set to True"

/-- Assert message of the running-stats check in `fuse_conv_bn`. -/
def msg_track_bn : String :=
  "Only support fusing BatchNorm2d with tracking_running_stats set to True"

/-- Assert message of the channel check in `fuse_conv_bn_relu`. -/
def msg_channels_bnrelu : String :=
  "Output channel of Conv must match num_features of BatchNorm"

/-- Assert message of the affine check in `fuse_conv_bn_relu`. -/
def msg_affine_bnrelu : String :=
  "Only support fusing BatchNorm with affine set to True"

/-- Assert message of the running-stats check in `fuse_conv_bn_relu`. -/
def msg_track_bnrelu : String :=
  "Only support fusing BatchNorm with tracking_running_stats set to True"

/-- The `fused_module_class_map` dict of `fuse_conv_bn`: nine entries, each
mapping a conv class to the constructor `snni.SpconvBnNd` (dict values are
classes, i.e. constructor functions). -/
def fused_module_class_map : ConvType → Option (Conv → Bn → FusedModule)
  | .spconv .SubMConv1d => some FusedModule.spconvBnNd
  | .spconv .SparseConv1d => some FusedModule.spconvBnNd
  | .spconv .SparseInverseConv1d => some FusedModule.spconvBnNd
  | .spconv .SubMConv2d => some FusedModule.spconvBnNd
  | .spconv .SparseConv2d => some FusedModule.spconvBnNd
  | .spconv .SparseInverseConv2d => some FusedModule.spconvBnNd
  | .spconv .SubMConv3d => some FusedModule.spconvBnNd
  | .spconv .SparseConv3d => some FusedModule.spconvBnNd
  | .spconv .SparseInverseConv3d => some FusedModule.spconvBnNd
  | _ => none

/-- The `map_to_fused_module_train` dict of `fuse_conv_bn_relu`: nine
entries, each mapping a conv class to `snni.SpconvBnReLUNd`. -/
def map_to_fused_module_train : ConvType → Option (Conv → Bn → Relu → FusedModule)
  | .spconv .SubMConv1d => some FusedModule.spconvBnReLUNd
  | .spconv .SparseConv1d => some FusedModule.spconvBnReLUNd
  | .spconv .SparseInverseConv1d => some FusedModule.spconvBnReLUNd
  | .spconv .SubMConv2d => some FusedModule.spconvBnReLUNd
  | .spconv .SparseConv2d => some FusedModule.spconvBnReLUNd
  | .spconv .SparseInverseConv2d => some FusedModule.spconvBnReLUNd
  | .spconv .SubMConv3d => some FusedModule.spconvBnReLUNd
  | .spconv .SparseConv3d => some FusedModule.spconvBnReLUNd
  | .spconv .SparseInverseConv3d => some FusedModule.spconvBnReLUNd
  | _ => none

/-- The `map_to_fused_module_eval` dict of `fuse_conv_bn_relu`: nine
entries, each mapping a conv class to `snni.SpconvReLUNd`. -/
def map_to_fused_module_eval : ConvType → Option (Conv → Relu → FusedModule)
  | .spconv .SubMConv1d => some FusedModule.spconvReLUNd
  | .spconv .SparseConv1d => some FusedModule.spconvReLUNd
  | .spconv .SparseInverseConv1d => some FusedModule.spconvReLUNd
  | .spconv .SubMConv2d => some FusedModule.spconvReLUNd
  | .spconv .SparseConv2d => some FusedModule.spconvReLUNd
  | .spconv .SparseInverseConv2d => some FusedModule.spconvReLUNd
  | .spconv .SubMConv3d => some FusedModule.spconvReLUNd
  | .spconv .SparseConv3d => some FusedModule.spconvReLUNd
  | .spconv .SparseInverseConv3d => some FusedModule.spconvReLUNd
  | _ => none

/-- `fuse_conv_bn(conv, bn)` of the source, parameterised over the external
eval fusion routine `fold` (`fuse_spconv_bn_eval` from `.utils`, which is
not part of this unit).  Asserts become `Except.error`; the branch order
mirrors the source line by line. -/
def fuse_conv_bn (fold : Conv → Bn → Conv) (conv : Conv) (bn : Bn) :
    Except FuseError FusedModule :=
  if conv.training = bn.training then
    if conv.training then
      if bn.num_features = conv.out_channels then
        if bn.affine then
          if bn.track_running_stats then
            match fused_module_class_map conv.ty with
            | some fused_module_class => Except.ok (fused_module_class conv bn)
            | none => Except.error FuseError.unsupportedLayerType
          else Except.error (FuseError.configurationError msg_track_bn)
        else Except.error (FuseError.configurationError msg_affine_bn)
      else Except.error (FuseError.configurationError msg_channels_bn)
    else Except.ok (FusedModule.plainConv (fold conv bn))
  else Except.error FuseError.modeMismatch

/-- `fuse_conv_bn_relu(conv, bn, relu)` of the source, parameterised over
the external eval fusion routine `fold`.  The chained Python comparison
`conv.training == bn.training == relu.training` is the conjunction of the
two adjacent equalities. -/
def fuse_conv_bn_relu (fold : Conv → Bn → Conv) (conv : Conv) (bn : Bn) (relu : Relu) :
    Except FuseError FusedModule :=
  if conv.training = bn.training ∧ bn.training = relu.training then
    if conv.training then
      if bn.num_features = conv.out_channels then
        if bn.affine then
          if bn.track_running_stats then
            match map_to_fused_module_train conv.ty with
            | some fused_module => Except.ok (fused_module conv bn relu)
            | none => Except.error FuseError.unsupportedLayerType
          else Except.error (FuseError.configurationError msg_track_bnrelu)
        else Except.error (FuseError.configurationError msg_affine_bnrelu)
      else Except.error (FuseError.configurationError msg_channels_bnrelu)
    else
      match map_to_fused_module_eval conv.ty with
      | some fused_module => Except.ok (fused_module (fold conv bn) relu)
      | none => Except.error FuseError.unsupportedLayerType
  else Except.error FuseError.modeMismatch

/-- Modelled from the spec: the external routine `fuse_spconv_bn_eval`
(imported from `.utils`, whose source is not part of this unit) performs
the standard per-output-channel affine fold of the running statistics into
the weight and bias, `w := w * (gamma / sqrt(var + eps))` and
`b := (b - mean) * (gamma / sqrt(var + eps)) + beta`, where the factor
`1 / sqrt(var + eps)` is the `invstd` field of `Bn`.  The result is a
conv-only module: no batch-norm state remains. -/
def fuse_spconv_bn_eval (conv : Conv) (bn : Bn) : Conv :=
  { conv with
    weight := fun ch k => conv.weight ch k * (bn.gamma ch * bn.invstd ch),
    bias := fun ch =>
      (conv.bias ch - bn.running_mean ch) * (bn.gamma ch * bn.invstd ch) + bn.beta ch }

/-- Forward pass of a conv module restricted to one output site: output of
channel `ch` on the input patch `x` of size `K` is
`(sum of weight ch k * x k) + bias ch`. -/
def convForward (c : Conv) (K : Nat) (x : Nat → ℚ) (ch : Nat) : ℚ :=
  (∑ k in Finset.range K, c.weight ch k * x k) + c.bias ch

/-- Eval-mode forward pass of a batch-norm module on a per-channel value:
normalise with the running statistics, then apply the affine transform. -/
def bnForward (bn : Bn) (y : Nat → ℚ) (ch : Nat) : ℚ :=
  (y ch - bn.running_mean ch) * bn.invstd ch * bn.gamma ch + bn.beta ch

/-- `fuse_conv_bn_relu` instrumented with a counter of how many times the
external routine `fold` is invoked; same branch structure as
`fuse_conv_bn_relu`, and `.2` is the invocation count. -/
def fuse_conv_bn_relu_traced (fold : Conv → Bn → Conv) (conv : Conv) (bn : Bn)
    (relu : Relu) : Except FuseError FusedModule × Nat :=
  if conv.training = bn.training ∧ bn.training = relu.training then
    if conv.training then
      if bn.num_features = conv.out_channels then
        if bn.affine then
          if bn.track_running_stats then
            match map_to_fused_module_train conv.ty with
            | some fused_module => (Except.ok (fused_module conv bn relu), 0)
            | none => (Except.error FuseError.unsupportedLayerType, 0)
          else (Except.error (FuseError.configurationError msg_track_bnrelu), 0)
        else (Except.error (FuseError.configurationError msg_affine_bnrelu), 0)
      else (Except.error (FuseError.configurationError msg_channels_bnrelu), 0)
    else
      match map_to_fused_module_eval conv.ty with
      | some fused_module => (Except.ok (fused_module (fold conv bn) relu), 1)
      | none => (Except.error FuseError.unsupportedLayerType, 0)
  else (Except.error FuseError.modeMismatch, 0)

/-- `fuse_conv_bn` instrumented with a counter of `fold` invocations. -/
def fuse_conv_bn_traced (fold : Conv → Bn → Conv) (conv : Conv) (bn : Bn) :
    Except FuseError FusedModule × Nat :=
  if conv.training = bn.training then
    if conv.training then
      if bn.num_features = conv.out_channels then
        if bn.affine then
          if bn.track_running_stats then
            match fused_module_class_map conv.ty with
            | some fused_module_class => (Except.ok (fused_module_class conv bn), 0)
            | none => (Except.error FuseError.unsupportedLayerType, 0)
          else (Except.error (FuseError.configurationError msg_track_bn), 0)
        else (Except.error (FuseError.configurationError msg_affine_bn), 0)
      else (Except.error (FuseError.configurationError msg_channels_bn), 0)
    else (Except.ok (FusedModule.plainConv (fold conv bn)), 1)
  else (Except.error FuseError.modeMismatch, 0)

/-- The batch-norm class used in the op-list table keys (the source uses
`nn.BatchNorm1d` in every key). -/
inductive BnType
  | BatchNorm1d
  deriving DecidableEq, Repr

/-- The activation class used in the op-list table keys. -/
inductive ActType
  | ReLU
  deriving DecidableEq, Repr

/-- A key of the op-sequence table: a literal 2- or 3-element tuple of
layer classes. -/
inductive OpKey
  | pair (c : ConvType) (b : BnType)
  | triple (c : ConvType) (b : BnType) (a : ActType)
  deriving DecidableEq, Repr

/-- The two dispatcher functions, as values of the op-sequence table. -/
inductive FuserMethod
  | fuseConvBn
  | fuseConvBnRelu
  deriving DecidableEq, Repr

/-- `DEFAULT_SPCONV_OP_LIST_TO_FUSER_METHOD` of the source, in source
order: eighteen entries, one pair and one triple per conv variant. -/
def DEFAULT_SPCONV_OP_LIST_TO_FUSER_METHOD : List (OpKey × FuserMethod) :=
  [ (OpKey.pair (.spconv .SubMConv1d) .BatchNorm1d, .fuseConvBn),
    (OpKey.triple (.spconv .SubMConv1d) .BatchNorm1d .ReLU, .fuseConvBnRelu),
    (OpKey.pair (.spconv .SparseConv1d) .BatchNorm1d, .fuseConvBn),
    (OpKey.triple (.spconv .SparseConv1d) .BatchNorm1d .ReLU, .fuseConvBnRelu),
    (OpKey.pair (.spconv .SparseInverseConv1d) .BatchNorm1d, .fuseConvBn),
    (OpKey.triple (.spconv .SparseInverseConv1d) .BatchNorm1d .ReLU, .fuseConvBnRelu),
    (OpKey.pair (.spconv .SubMConv2d) .BatchNorm1d, .fuseConvBn),
    (OpKey.triple (.spconv .SubMConv2d) .BatchNorm1d .ReLU, .fuseConvBnRelu),
    (OpKey.pair (.spconv .SparseConv2d) .BatchNorm1d, .fuseConvBn),
    (OpKey.triple (.spconv .SparseConv2d) .BatchNorm1d .ReLU, .fuseConvBnRelu),
    (OpKey.pair (.spconv .SparseInverseConv2d) .BatchNorm1d, .fuseConvBn),
    (OpKey.triple (.spconv .SparseInverseConv2d) .BatchNorm1d .ReLU, .fuseConvBnRelu),
    (OpKey.pair (.spconv .SubMConv3d) .BatchNorm1d, .fuseConvBn),
    (OpKey.triple (.spconv .SubMConv3d) .BatchNorm1d .ReLU, .fuseConvBnRelu),
    (OpKey.pair (.spconv .SparseConv3d) .BatchNorm1d, .fuseConvBn),
    (OpKey.triple (.spconv .SparseConv3d) .BatchNorm1d .ReLU, .fuseConvBnRelu),
    (OpKey.pair (.spconv .SparseInverseConv3d) .BatchNorm1d, .fuseConvBn),
    (OpKey.triple (.spconv .SparseInverseConv3d) .BatchNorm1d .ReLU, .fuseConvBnRelu) ]

/-- The three intrinsic wrapper classes, as type tags (keys of the QAT
table and classes of dispatcher results). -/
inductive IntrinsicType
  | SpconvBnNd
  | SpconvBnReLUNd
  | SpconvReLUNd
  deriving DecidableEq, Repr

/-- The quantization-aware module classes of `.conv_fused`. -/
inductive QatModuleType
  | SparseConvBn
  | SparseConvBnReLU
  deriving DecidableEq, Repr

/-- `DEFAULT_SPCONV_QAT_MODULE_MAPPINGS` of the source: the two intrinsic
classes mapped to their quantization-aware counterparts. -/
def DEFAULT_SPCONV_QAT_MODULE_MAPPINGS : List (IntrinsicType × QatModuleType) :=
  [ (IntrinsicType.SpconvBnNd, QatModuleType.SparseConvBn),
    (IntrinsicType.SpconvBnReLUNd, QatModuleType.SparseConvBnReLU) ]

/-- The intrinsic class of a fused module (`type(m)` in Python); a plain
folded conv is not an intrinsic module. -/
def FusedModule.classOf : FusedModule → Option IntrinsicType
  | .spconvBnNd _ _ => some .SpconvBnNd
  | .spconvBnReLUNd _ _ _ => some .SpconvBnReLUNd
  | .spconvReLUNd _ _ => some .SpconvReLUNd
  | .plainConv _ => none

/-- All quantization-aware counterparts of an intrinsic class in the QAT
table. -/
def qatLookup (t : IntrinsicType) : List QatModuleType :=
  (DEFAULT_SPCONV_QAT_MODULE_MAPPINGS.filter (fun e => e.1 = t)).map Prod.snd

/-- A conv type is supported when it is a key of the fusion dispatch
dictionaries. -/
def ConvType.supported (t : ConvType) : Bool :=
  (fused_module_class_map t).isSome

/-- A concrete supported conv in training mode (class `SubMConv1d`). -/
def conv0 : Conv :=
  { ty := ConvType.spconv ConvKind.SubMConv1d, training := true, out_channels := 2,
    weight := fun _ _ => 1, bias := fun _ => 0 }

/-- A concrete valid batch-norm in training mode matching `conv0`. -/
def bn0 : Bn :=
  { training := true, num_features := 2, affine := true, track_running_stats := true,
    gamma := fun _ => 2, beta := fun _ => 3, running_mean := fun _ => 1,
    invstd := fun _ => (1 : ℚ) / 2 }

/-- A concrete ReLU in training mode. -/
def relu0 : Relu := { training := true }

/-- `conv0` switched to eval mode. -/
def conv_e : Conv := { conv0 with training := false }

/-- `bn0` switched to eval mode. -/
def bn_e : Bn := { bn0 with training := false }

/-- A concrete ReLU in eval mode. -/
def relu_e : Relu := { training := false }

/-- An eval-mode conv of a class outside the nine supported variants. -/
def conv_u : Conv := { conv0 with ty := ConvType.other 0, training := false }

/-- A training-mode conv of a class outside the nine supported variants. -/
def conv_ut : Conv := { conv0 with ty := ConvType.other 0 }

/-- `bn0` with `affine := false`. -/
def bn_noaffine : Bn := { bn0 with affine := false }

/-- An eval-mode batch-norm violating all three training-branch conditions. -/
def bn_bad_eval : Bn :=
  { bn_e with num_features := 5, affine := false, track_running_stats := false }

/-- An op-list entry is consistent when a 2-element key maps to
`fuse_conv_bn` and a 3-element key maps to `fuse_conv_bn_relu`. -/
def opEntryConsistent : OpKey × FuserMethod → Bool
  | (OpKey.pair _ _, FuserMethod.fuseConvBn) => true
  | (OpKey.triple _ _ _, FuserMethod.fuseConvBnRelu) => true
  | _ => false

/-- A conv variant is covered by the op-list table when its pair key maps
exactly to `fuse_conv_bn` and its triple key exactly to
`fuse_conv_bn_relu`, each through a single entry. -/
def kindCovered (k : ConvKind) : Bool :=
  decide ((DEFAULT_SPCONV_OP_LIST_TO_FUSER_METHOD.filter
      (fun e => e.1 = OpKey.pair (ConvType.spconv k) BnType.BatchNorm1d)).map Prod.snd =
      [FuserMethod.fuseConvBn]) &&
  decide ((DEFAULT_SPCONV_OP_LIST_TO_FUSER_METHOD.filter
      (fun e => e.1 = OpKey.triple (ConvType.spconv k) BnType.BatchNorm1d ActType.ReLU)).map
      Prod.snd = [FuserMethod.fuseConvBnRelu])

theorem maps_none_of_unsupported (t : ConvType) (h : t.supported = false) :
    fused_module_class_map t = none ∧ map_to_fused_module_train t = none ∧
    map_to_fused_module_eval t = none := by
  cases t with
  | spconv k => cases k <;> simp [ConvType.supported, fused_module_class_map] at h
  | subclassOf k n => exact ⟨rfl, rfl, rfl⟩
  | other n => exact ⟨rfl, rfl, rfl⟩

theorem fused_module_class_map_eq (t : ConvType) (f : Conv → Bn → FusedModule)
    (h : fused_module_class_map t = some f) : f = FusedModule.spconvBnNd := by
  cases t with
  | spconv k => cases k <;> exact (Option.some.inj h).symm
  | subclassOf k n => exact Option.noConfusion h
  | other n => exact Option.noConfusion h

theorem map_to_fused_module_train_eq (t : ConvType) (f : Conv → Bn → Relu → FusedModule)
    (h : map_to_fused_module_train t = some f) : f = FusedModule.spconvBnReLUNd := by
  cases t with
  | spconv k => cases k <;> exact (Option.some.inj h).symm
  | subclassOf k n => exact Option.noConfusion h
  | other n => exact Option.noConfusion h

/-- Claim C2: whenever `conv.training` differs from `bn.training`,
`fuse_conv_bn` reports a mode mismatch, and whenever conv, bn and relu do
not all share one training flag, `fuse_conv_bn_relu` reports a mode
mismatch — for every fold routine and all other parameters, and before any
other validation or table lookup (no other error can surface). -/
theorem C2_mode_check_first (fold : Conv → Bn → Conv) (conv : Conv) (bn : Bn) (relu : Relu) :
    (conv.training ≠ bn.training →
      fuse_conv_bn fold conv bn = Except.error FuseError.modeMismatch) ∧
    (¬ (conv.training = bn.training ∧ bn.training = relu.training) →
      fuse_conv_bn_relu fold conv bn relu = Except.error FuseError.modeMismatch) := by
  constructor <;> intro h <;> simp [fuse_conv_bn, fuse_conv_bn_relu, h]

/-- Witness for C2 at concrete mismatched modules. -/
theorem C2_mode_check_first_witness :
    fuse_conv_bn fuse_spconv_bn_eval conv0 bn_e = Except.error FuseError.modeMismatch ∧
    fuse_conv_bn_relu fuse_spconv_bn_eval conv0 bn0 relu_e =
      Except.error FuseError.modeMismatch :=
  ⟨(C2_mode_check_first fuse_spconv_bn_eval conv0 bn_e relu_e).1 (by decide),
   (C2_mode_check_first fuse_spconv_bn_eval conv0 bn0 relu_e).2 (by decide)⟩

/-- Claim C4: for each of the nine supported conv variants, a
training-mode call with an affine, stats-tracking batch-norm of matching
channel count succeeds: `fuse_conv_bn` returns `SpconvBnNd(conv, bn)` and
`fuse_conv_bn_relu` returns `SpconvBnReLUNd(conv, bn, relu)`. -/
theorem C4_training_success (fold : Conv → Bn → Conv) (conv : Conv) (bn : Bn) (relu : Relu)
    (k : ConvKind) (hty : conv.ty = ConvType.spconv k)
    (hc : conv.training = true) (hb : bn.training = true) (hr : relu.training = true)
    (hnf : bn.num_features = conv.out_channels) (haf : bn.affine = true)
    (hts : bn.track_running_stats = true) :
    fuse_conv_bn fold conv bn = Except.ok (FusedModule.spconvBnNd conv bn) ∧
    fuse_conv_bn_relu fold conv bn relu =
      Except.ok (FusedModule.spconvBnReLUNd conv bn relu) := by
  cases k <;> constructor <;>
    simp [fuse_conv_bn, fuse_conv_bn_relu, hty, hc, hb, hr, hnf, haf, hts,
      fused_module_class_map, map_to_fused_module_train]

/-- Witness for C4 at a concrete `SubMConv1d` training triple. -/
theorem C4_training_success_witness :
    fuse_conv_bn fuse_spconv_bn_eval conv0 bn0 =
      Except.ok (FusedModule.spconvBnNd conv0 bn0) ∧
    fuse_conv_bn_relu fuse_spconv_bn_eval conv0 bn0 relu0 =
      Except.ok (FusedModule.spconvBnReLUNd conv0 bn0 relu0) :=
  C4_training_success fuse_spconv_bn_eval conv0 bn0 relu0 ConvKind.SubMConv1d
    rfl rfl rfl rfl rfl rfl rfl

/-- Claim C5: in eval mode, for each supported variant,
`fuse_conv_bn_relu` folds bn into conv via the fold routine and wraps the
folded conv with relu into `SpconvReLUNd`; the traced variant shows one
fold invocation on success, and the lookup gates the fold: an unsupported
type yields the error with zero fold invocations. -/
theorem C5_eval_relu_fold_then_wrap (fold : Conv → Bn → Conv) (conv : Conv) (bn : Bn)
    (relu : Relu) (k : ConvKind) (hty : conv.ty = ConvType.spconv k)
    (hc : conv.training = false) (hb : bn.training = false) (hr : relu.training = false) :
    fuse_conv_bn_relu fold conv bn relu =
      Except.ok (FusedModule.spconvReLUNd (fold conv bn) relu) ∧
    fuse_conv_bn_relu_traced fold conv bn relu =
      (Except.ok (FusedModule.spconvReLUNd (fold conv bn) relu), 1) ∧
    (∀ c2 : Conv, ConvType.supported c2.ty = false → c2.training = false →
      fuse_conv_bn_relu_traced fold c2 bn relu =
        (Except.error FuseError.unsupportedLayerType, 0)) := by
  refine ⟨?_, ?_, ?_⟩
  · cases k <;> simp [fuse_conv_bn_relu, hty, hc, hb, hr, map_to_fused_module_eval]
  · cases k <;> simp [fuse_conv_bn_relu_traced, hty, hc, hb, hr, map_to_fused_module_eval]
  · intro c2 h2 hc2
    obtain ⟨_, _, hev⟩ := maps_none_of_unsupported c2.ty h2
    simp [fuse_conv_bn_relu_traced, hc2, hb, hr, hev]

/-- Witness for C5 at a concrete `SubMConv1d` eval triple. -/
theorem C5_eval_relu_fold_then_wrap_witness :
    fuse_conv_bn_relu fuse_spconv_bn_eval conv_e bn_e relu_e =
      Except.ok (FusedModule.spconvReLUNd (fuse_spconv_bn_eval conv_e bn_e) relu_e) :=
  (C5_eval_relu_fold_then_wrap fuse_spconv_bn_eval conv_e bn_e relu_e
    ConvKind.SubMConv1d rfl rfl rfl rfl).1

/-- Claim C6: the op-sequence table has eighteen entries, pairwise
distinct keys, exactly one pair entry and one triple entry per conv
variant (mapping to `fuse_conv_bn` and `fuse_conv_bn_relu` respectively),
and every 2-element key maps to `fuse_conv_bn` while every 3-element key
maps to `fuse_conv_bn_relu`. -/
theorem C6_op_list_table :
    DEFAULT_SPCONV_OP_LIST_TO_FUSER_METHOD.length = 18 ∧
    (DEFAULT_SPCONV_OP_LIST_TO_FUSER_METHOD.map Prod.fst).Nodup ∧
    (∀ k : ConvKind, kindCovered k = true) ∧
    DEFAULT_SPCONV_OP_LIST_TO_FUSER_METHOD.all opEntryConsistent = true := by
  refine ⟨by decide, by decide, by decide, by decide⟩

/-- Claim C8: in eval mode the activation-fusion path performs no
batch-norm validation: for any supported conv variant and any batch-norm
whatsoever (affine or not, tracking stats or not, any channel count), the
call returns a module and never a ConfigurationError. -/
theorem C8_eval_no_validation (fold : Conv → Bn → Conv) (conv : Conv) (bn : Bn)
    (relu : Relu) (k : ConvKind) (hty : conv.ty = ConvType.spconv k)
    (hc : conv.training = false) (hb : bn.training = false) (hr : relu.training = false) :
    (∃ m, fuse_conv_bn_relu fold conv bn relu = Except.ok m) ∧
    (∀ msg, fuse_conv_bn_relu fold conv bn relu ≠
      Except.error (FuseError.configurationError msg)) := by
  have hok : fuse_conv_bn_relu fold conv bn relu =
      Except.ok (FusedModule.spconvReLUNd (fold conv bn) relu) := by
    cases k <;> simp [fuse_conv_bn_relu, hty, hc, hb, hr, map_to_fused_module_eval]
  refine ⟨⟨_, hok⟩, ?_⟩
  intro msg h
  rw [hok] at h
  exact Except.noConfusion h

/-- Witness for C8: an eval call with a batch-norm violating every
training-branch condition still does not raise a ConfigurationError. -/
theorem C8_eval_no_validation_witness :
    fuse_conv_bn_relu fuse_spconv_bn_eval conv_e bn_bad_eval relu_e ≠
      Except.error (FuseError.configurationError msg_affine_bnrelu) :=
  (C8_eval_no_validation fuse_spconv_bn_eval conv_e bn_bad_eval relu_e
    ConvKind.SubMConv1d rfl rfl rfl rfl).2 msg_affine_bnrelu

/-- Counterexample to claim C1 as stated: `conv_u` has an unsupported
runtime type and is in eval mode, yet `fuse_conv_bn` returns a module
(the fold of conv and bn) and does not raise UnsupportedLayerType — the
eval branch of `fuse_conv_bn` performs no type lookup at all. -/
theorem C1_counterexample :
    ConvType.supported (Conv.ty conv_u) = false ∧
    fuse_conv_bn fuse_spconv_bn_eval conv_u bn_e =
      Except.ok (FusedModule.plainConv (fuse_spconv_bn_eval conv_u bn_e)) ∧
    fuse_conv_bn fuse_spconv_bn_eval conv_u bn_e ≠
      Except.error FuseError.unsupportedLayerType := by
  refine ⟨rfl, rfl, ?_⟩
  intro h
  exact Except.noConfusion (h.symm.trans (rfl :
    fuse_conv_bn fuse_spconv_bn_eval conv_u bn_e =
      Except.ok (FusedModule.plainConv (fuse_spconv_bn_eval conv_u bn_e))))

/-- Claim C1 (amended): for an unsupported conv runtime type,
`fuse_conv_bn` in training mode (with the earlier checks passing) and
`fuse_conv_bn_relu` in both modes raise UnsupportedLayerType, while
`fuse_conv_bn` in eval mode never checks the type and returns the folded
module. -/
theorem C1_unsupported_amended (fold : Conv → Bn → Conv) (conv : Conv) (bn : Bn)
    (relu : Relu) (hsup : conv.ty.supported = false) :
    (conv.training = true → bn.training = true →
      bn.num_features = conv.out_channels → bn.affine = true →
      bn.track_running_stats = true →
      fuse_conv_bn fold conv bn = Except.error FuseError.unsupportedLayerType) ∧
    (conv.training = false → bn.training = false →
      fuse_conv_bn fold conv bn = Except.ok (FusedModule.plainConv (fold conv bn))) ∧
    (conv.training = true → bn.training = true → relu.training = true →
      bn.num_features = conv.out_channels → bn.affine = true →
      bn.track_running_stats = true →
      fuse_conv_bn_relu fold conv bn relu = Except.error FuseError.unsupportedLayerType) ∧
    (conv.training = false → bn.training = false → relu.training = false →
      fuse_conv_bn_relu fold conv bn relu =
        Except.error FuseError.unsupportedLayerType) := by
  obtain ⟨h1, h2, h3⟩ := maps_none_of_unsupported conv.ty hsup
  refine ⟨?_, ?_, ?_, ?_⟩ <;> intros <;>
    simp_all [fuse_conv_bn, fuse_conv_bn_relu]

/-- Witness for the amended C1 at concrete unsupported convs. -/
theorem C1_unsupported_amended_witness :
    fuse_conv_bn fuse_spconv_bn_eval conv_ut bn0 =
      Except.error FuseError.unsupportedLayerType ∧
    fuse_conv_bn_relu fuse_spconv_bn_eval conv_u bn_e relu_e =
      Except.error FuseError.unsupportedLayerType :=
  ⟨(C1_unsupported_amended fuse_spconv_bn_eval conv_ut bn0 relu0 rfl).1
      rfl rfl rfl rfl rfl,
   (C1_unsupported_amended fuse_spconv_bn_eval conv_u bn_e relu_e rfl).2.2.2
      rfl rfl rfl⟩

/-- Claim C3: in training mode both dispatchers enforce matching channel
count, `affine = true` and `track_running_stats = true`; each single
violation yields a ConfigurationError carrying that condition's own
assert message, any violation yields some ConfigurationError, and the
three messages are pairwise distinct in each function. -/
theorem C3_training_config_checks (fold : Conv → Bn → Conv) (conv : Conv) (bn : Bn)
    (relu : Relu) (hc : conv.training = true) (hb : bn.training = true)
    (hr : relu.training = true) :
    (bn.num_features ≠ conv.out_channels →
      fuse_conv_bn fold conv bn =
        Except.error (FuseError.configurationError msg_channels_bn) ∧
      fuse_conv_bn_relu fold conv bn relu =
        Except.error (FuseError.configurationError msg_channels_bnrelu)) ∧
    (bn.num_features = conv.out_channels → bn.affine = false →
      fuse_conv_bn fold conv bn =
        Except.error (FuseError.configurationError msg_affine_bn) ∧
      fuse_conv_bn_relu fold conv bn relu =
        Except.error (FuseError.configurationError msg_affine_bnrelu)) ∧
    (bn.num_features = conv.out_channels → bn.affine = true →
      bn.track_running_stats = false →
      fuse_conv_bn fold conv bn =
        Except.error (FuseError.configurationError msg_track_bn) ∧
      fuse_conv_bn_relu fold conv bn relu =
        Except.error (FuseError.configurationError msg_track_bnrelu)) ∧
    ((bn.num_features ≠ conv.out_channels ∨ bn.affine = false ∨
        bn.track_running_stats = false) →
      (∃ m, fuse_conv_bn fold conv bn =
        Except.error (FuseError.configurationError m)) ∧
      (∃ m, fuse_conv_bn_relu fold conv bn relu =
        Except.error (FuseError.configurationError m))) ∧
    (msg_channels_bn ≠ msg_affine_bn ∧ msg_channels_bn ≠ msg_track_bn ∧
      msg_affine_bn ≠ msg_track_bn ∧ msg_channels_bnrelu ≠ msg_affine_bnrelu ∧
      msg_channels_bnrelu ≠ msg_track_bnrelu ∧ msg_affine_bnrelu ≠ msg_track_bnrelu) := by
  have hA : bn.num_features ≠ conv.out_channels →
      fuse_conv_bn fold conv bn =
        Except.error (FuseError.configurationError msg_channels_bn) ∧
      fuse_conv_bn_relu fold conv bn relu =
        Except.error (FuseError.configurationError msg_channels_bnrelu) := by
    intro h
    constructor <;> simp [fuse_conv_bn, fuse_conv_bn_relu, hc, hb, hr, h]
  have hB : bn.num_features = conv.out_channels → bn.affine = false →
      fuse_conv_bn fold conv bn =
        Except.error (FuseError.configurationError msg_affine_bn) ∧
      fuse_conv_bn_relu fold conv bn relu =
        Except.error (FuseError.configurationError msg_affine_bnrelu) := by
    intro h1 h2
    constructor <;> simp [fuse_conv_bn, fuse_conv_bn_relu, hc, hb, hr, h1, h2]
  have hC : bn.num_features = conv.out_channels → bn.affine = true →
      bn.track_running_stats = false →
      fuse_conv_bn fold conv bn =
        Except.error (FuseError.configurationError msg_track_bn) ∧
      fuse_conv_bn_relu fold conv bn relu =
        Except.error (FuseError.configurationError msg_track_bnrelu) := by
    intro h1 h2 h3
    constructor <;> simp [fuse_conv_bn, fuse_conv_bn_relu, hc, hb, hr, h1, h2, h3]
  refine ⟨hA, hB, hC, ?_, by decide⟩
  intro h
  rcases h with h | h | h
  · exact ⟨⟨_, (hA h).1⟩, ⟨_, (hA h).2⟩⟩
  · by_cases hnf : bn.num_features = conv.out_channels
    · exact ⟨⟨_, (hB hnf h).1⟩, ⟨_, (hB hnf h).2⟩⟩
    · exact ⟨⟨_, (hA hnf).1⟩, ⟨_, (hA hnf).2⟩⟩
  · by_cases hnf : bn.num_features = conv.out_channels
    · cases haf : bn.affine with
      | false => exact ⟨⟨_, (hB hnf haf).1⟩, ⟨_, (hB hnf haf).2⟩⟩
      | true => exact ⟨⟨_, (hC hnf haf h).1⟩, ⟨_, (hC hnf haf h).2⟩⟩
    · exact ⟨⟨_, (hA hnf).1⟩, ⟨_, (hA hnf).2⟩⟩

/-- Witness for C3: a training batch-norm with `affine = false` fails with
the affine assert message on both dispatchers. -/
theorem C3_training_config_checks_witness :
    fuse_conv_bn fuse_spconv_bn_eval conv0 bn_noaffine =
      Except.error (FuseError.configurationError msg_affine_bn) ∧
    fuse_conv_bn_relu fuse_spconv_bn_eval conv0 bn_noaffine relu0 =
      Except.error (FuseError.configurationError msg_affine_bnrelu) :=
  (C3_training_config_checks fuse_spconv_bn_eval conv0 bn_noaffine relu0
    rfl rfl rfl).2.1 rfl rfl

/-- Claim C7: in eval mode `fuse_conv_bn` returns the conv-only folded
module, and the folded conv's forward output on any input patch equals
the original conv followed by the eval-mode batch-norm, exactly over ℚ
(the spec's within-tolerance statement, with `1 / sqrt(var + eps)`
represented by the `invstd` field). -/
theorem C7_eval_fold_correct (conv : Conv) (bn : Bn) (K : Nat) (x : Nat → ℚ) (ch : Nat)
    (hc : conv.training = false) (hb : bn.training = false) :
    fuse_conv_bn fuse_spconv_bn_eval conv bn =
      Except.ok (FusedModule.plainConv (fuse_spconv_bn_eval conv bn)) ∧
    convForward (fuse_spconv_bn_eval conv bn) K x ch =
      bnForward bn (convForward conv K x) ch := by
  constructor
  · simp [fuse_conv_bn, hc, hb]
  · have hsum : ∑ k in Finset.range K,
        conv.weight ch k * (bn.gamma ch * bn.invstd ch) * x k =
        (∑ k in Finset.range K, conv.weight ch k * x k) *
          (bn.gamma ch * bn.invstd ch) := by
      rw [Finset.sum_mul]
      exact Finset.sum_congr rfl (fun k _ => by ring)
    simp only [convForward, bnForward, fuse_spconv_bn_eval]
    rw [hsum]
    ring

/-- Witness for C7 at a concrete eval pair and input patch. -/
theorem C7_eval_fold_correct_witness :
    fuse_conv_bn fuse_spconv_bn_eval conv_e bn_e =
      Except.ok (FusedModule.plainConv (fuse_spconv_bn_eval conv_e bn_e)) ∧
    convForward (fuse_spconv_bn_eval conv_e bn_e) 2 (fun _ => 1) 0 =
      bnForward bn_e (convForward conv_e 2 (fun _ => 1)) 0 :=
  C7_eval_fold_correct conv_e bn_e 2 (fun _ => 1) 0 rfl rfl

theorem fuse_conv_bn_train_ok (fold : Conv → Bn → Conv) (conv : Conv) (bn : Bn)
    (m : FusedModule) (hc : conv.training = true)
    (hok : fuse_conv_bn fold conv bn = Except.ok m) :
    m = FusedModule.spconvBnNd conv bn := by
  unfold fuse_conv_bn at hok
  split_ifs at hok with h1 h2 h3 h4
  cases hmap : fused_module_class_map conv.ty with
  | none => rw [hmap] at hok; exact Except.noConfusion hok
  | some f =>
    rw [hmap] at hok
    have hf := fused_module_class_map_eq conv.ty f hmap
    have hm := (Except.ok.inj hok).symm
    rw [hm, hf]

theorem fuse_conv_bn_relu_train_ok (fold : Conv → Bn → Conv) (conv : Conv) (bn : Bn)
    (relu : Relu) (m : FusedModule) (hc : conv.training = true)
    (hok : fuse_conv_bn_relu fold conv bn relu = Except.ok m) :
    m = FusedModule.spconvBnReLUNd conv bn relu := by
  unfold fuse_conv_bn_relu at hok
  split_ifs at hok with h1 h2 h3 h4
  cases hmap : map_to_fused_module_train conv.ty with
  | none => rw [hmap] at hok; exact Except.noConfusion hok
  | some f =>
    rw [hmap] at hok
    have hf := map_to_fused_module_train_eq conv.ty f hmap
    have hm := (Except.ok.inj hok).symm
    rw [hm, hf]

/-- Claim C9: the QAT swap table has exactly two entries, `SpconvBnNd`
mapping to `SparseConvBn` and `SpconvBnReLUNd` to `SparseConvBnReLU`, and
every intrinsic module produced by a training-mode dispatcher call has
exactly one quantization-aware counterpart in the table. -/
theorem C9_qat_table (fold : Conv → Bn → Conv) (conv : Conv) (bn : Bn) (relu : Relu) :
    DEFAULT_SPCONV_QAT_MODULE_MAPPINGS.length = 2 ∧
    qatLookup IntrinsicType.SpconvBnNd = [QatModuleType.SparseConvBn] ∧
    qatLookup IntrinsicType.SpconvBnReLUNd = [QatModuleType.SparseConvBnReLU] ∧
    (∀ m, conv.training = true → fuse_conv_bn fold conv bn = Except.ok m →
      ∃ t, m.classOf = some t ∧ qatLookup t = [QatModuleType.SparseConvBn]) ∧
    (∀ m, conv.training = true → fuse_conv_bn_relu fold conv bn relu = Except.ok m →
      ∃ t, m.classOf = some t ∧ qatLookup t = [QatModuleType.SparseConvBnReLU]) := by
  refine ⟨by decide, by decide, by decide, ?_, ?_⟩
  · intro m hc hok
    rw [fuse_conv_bn_train_ok fold conv bn m hc hok]
    exact ⟨IntrinsicType.SpconvBnNd, rfl, by decide⟩
  · intro m hc hok
    rw [fuse_conv_bn_relu_train_ok fold conv bn relu m hc hok]
    exact ⟨IntrinsicType.SpconvBnReLUNd, rfl, by decide⟩

/-- Witness for C9 at a concrete training-mode fusion result. -/
theorem C9_qat_table_witness :
    FusedModule.classOf (FusedModule.spconvBnNd conv0 bn0) =
      some IntrinsicType.SpconvBnNd ∧
    qatLookup IntrinsicType.SpconvBnNd = [QatModuleType.SparseConvBn] := by
  obtain ⟨t, h1, h2⟩ := (C9_qat_table fuse_spconv_bn_eval conv0 bn0 relu0).2.2.2.1
    (FusedModule.spconvBnNd conv0 bn0) rfl rfl
  have ht : t = IntrinsicType.SpconvBnNd := Option.some.inj (h1.symm.trans rfl)
  subst ht
  exact ⟨h1, h2⟩

/-- Claim C10: the traced dispatchers agree with the plain ones, and any
erroring call performs zero invocations of the external fold routine (so
no fused module is built and no numeric fusion work happens; in
particular the eval lookup of `fuse_conv_bn_relu` gates the fold). -/
theorem C10_error_no_fold (fold : Conv → Bn → Conv) (conv : Conv) (bn : Bn) (relu : Relu) :
    (fuse_conv_bn_traced fold conv bn).1 = fuse_conv_bn fold conv bn ∧
    (fuse_conv_bn_relu_traced fold conv bn relu).1 = fuse_conv_bn_relu fold conv bn relu ∧
    (∀ e, fuse_conv_bn fold conv bn = Except.error e →
      fuse_conv_bn_traced fold conv bn = (Except.error e, 0)) ∧
    (∀ e, fuse_conv_bn_relu fold conv bn relu = Except.error e →
      fuse_conv_bn_relu_traced fold conv bn relu = (Except.error e, 0)) := by
  refine ⟨?_, ?_, ?_, ?_⟩
  · unfold fuse_conv_bn fuse_conv_bn_traced
    split_ifs <;>
      first
        | rfl
        | (cases fused_module_class_map conv.ty <;> rfl)
  · unfold fuse_conv_bn_relu fuse_conv_bn_relu_traced
    split_ifs <;>
      first
        | rfl
        | (cases map_to_fused_module_train conv.ty <;> rfl)
        | (cases map_to_fused_module_eval conv.ty <;> rfl)
  · intro e he
    unfold fuse_conv_bn at he
    unfold fuse_conv_bn_traced
    split_ifs at he ⊢ <;>
      first
        | (exact Except.noConfusion he)
        | (rw [he])
        | ((cases hmap : fused_module_class_map conv.ty <;> simp_all); done)
  · intro e he
    unfold fuse_conv_bn_relu at he
    unfold fuse_conv_bn_relu_traced
    split_ifs at he ⊢ <;>
      first
        | (exact Except.noConfusion he)
        | (rw [he])
        | ((cases hmap : map_to_fused_module_train conv.ty <;> simp_all); done)
        | ((cases hmap : map_to_fused_module_eval conv.ty <;> simp_all); done)

/-- Witness for C10: an unsupported eval triple errors with zero fold
invocations. -/
theorem C10_error_no_fold_witness :
    fuse_conv_bn_relu_traced fuse_spconv_bn_eval conv_u bn_e relu_e =
      (Except.error FuseError.unsupportedLayerType, 0) :=
  (C10_error_no_fold fuse_spconv_bn_eval conv_u bn_e relu_e).2.2.2
    FuseError.unsupportedLayerType rfl
